import Mathlib

/-!
Verification development for the CryoTempMonitor repository
(`backend.py`: class `Session`; `interface.py`: class `MainWindow`).

The acquisition loop (`Session.run`, backend.py lines 89-124) is embedded
as a step function over an explicit event trace.  Per-iteration inputs
(the elapsed-clock reading, the parsed instrument response, the wall-clock
reading, the plot window's visibility, and whether the GUI stop flag was
set during the iteration) are supplied as a list, one entry per loop
iteration.  Machine floats are modelled by exact rationals (environment
inputs) and reals (derived temperatures); `math.sqrt` is `Real.sqrt`
guarded by the domain check that Python's `math.sqrt` performs (it raises
ValueError, the spec's `DomainError`, exactly on a negative argument).
Decimal constants are written as explicit integer fractions; they are
equal to the corresponding decimal literals of the source (e.g.
`232 / 100000 = 0.00232`), as proved in `radicand_eq_decimal` below.
-/

set_option maxRecDepth 40000
set_option maxHeartbeats 2000000

/-- backend.py line 112, the radicand of the calibration formula:
`-0.00232 * resistance + 17.59246`, with the decimal constants written as
the exact fractions `232 / 100000` and `1759246 / 100000`. -/
def radicand (r : ℚ) : ℚ := -(232 / 100000) * r + 1759246 / 100000

/-- backend.py line 112, the temperature produced when the radicand is
non-negative: `T = - (math.sqrt(-0.00232 * resistance + 17.59246) - 3.908) / 0.00116`. -/
noncomputable def tval (r : ℚ) : ℝ :=
  -(Real.sqrt ((radicand r : ℚ) : ℝ) - 3.908) / 0.00116

/-- Failure causes that can abort the polling loop as uncaught exceptions:
`float(response.strip())` raising ValueError (backend.py line 110),
`math.sqrt` raising ValueError on a negative argument (line 112), and the
heating-speed division raising ZeroDivisionError (line 61). -/
inductive RunErr where
  | parseError
  | domainError
  | zeroDiv
deriving DecidableEq, Repr

/-- backend.py line 112 as a fallible conversion: Python's `math.sqrt`
raises ValueError (math domain error) exactly when its argument is
negative; otherwise the line computes the closed-form temperature. -/
noncomputable def convert (r : ℚ) : Except RunErr ℝ :=
  if radicand r < 0 then .error .domainError else .ok (tval r)

/-- The `.seconds` attribute of the Python `timedelta` obtained by
subtracting two `datetime`s that are `d` seconds apart: after timedelta
normalization the seconds component is the floor of the total seconds,
taken modulo 86400 (used at backend.py line 61). -/
def tdSeconds (d : ℚ) : ℤ := (Rat.floor d) % 86400

/-- One line of the log file.  `headerStarted` is the line written at
backend.py line 97 (`#measurement started at <ctime> with Keithley 2636A`);
`headerColumns` is the column-title line of line 98
(`# Time / t ( s ) / R ( Ohm ) / T (C)`, tab-separated); `row date t r T`
is the tab-separated data line of line 117, carrying the wall-clock
timestamp (written as `strftime` `H:M:S.f`) and the elapsed seconds,
resistance and temperature values (each written with the `.3f` format,
i.e. three decimal places). -/
inductive FileLine where
  | headerStarted
  | headerColumns
  | row (date : ℚ) (t : ℚ) (r : ℚ) (T : ℝ)

/-- Observable events of the acquisition thread, in program order.
`tick t` is the elapsed-clock reading `timeit.default_timer() - start`
(backend.py line 106); `cmd s` is a VISA write of the literal command
string `s`; `readResp o` is the instrument read combined with the outcome
of `float(response.strip())` (lines 109-110, `none` meaning ValueError);
`printRes`/`printT` are the console prints of lines 111 and 113;
`sleep50` is `time.sleep(0.05)` (line 114); `takeDate d` is
`datetime.datetime.now()` (line 115); `fileWrite` is a line written to the
log file (lines 97, 98, 117); `appendData` is `self.data.append([date, T])`
(line 118); `plotPoint`/`plotClosed`/`heatSet` are the effects of
`update_plot` (lines 40-63); `printFinished` is line 120; `fileClose` is
line 122; `notify ok msg` is `self.parent.finished(ok, msg)` (line 124). -/
inductive Ev where
  | tick (t : ℚ)
  | cmd (s : String)
  | readResp (o : Option ℚ)
  | printRes (r : ℚ)
  | printT (T : ℝ)
  | sleep50
  | takeDate (d : ℚ)
  | fileWrite (l : FileLine)
  | appendData (d : ℚ) (T : ℝ)
  | plotPoint (x : ℚ) (y : ℝ)
  | plotClosed
  | heatSet (v : ℝ)
  | printFinished
  | fileClose
  | notify (ok : Bool) (msg : String)

/-- Per-iteration environment inputs of the polling loop: the elapsed-clock
reading `t` (backend.py line 106), the parsed resistance `resp`
(lines 109-110, `none` meaning `float` raised ValueError), the wall-clock
reading `date` (line 115), whether `self.f.isVisible()` holds (line 40),
and whether the GUI set `self.alive = False` during this iteration
(cooperative cancellation, honoured at the next loop-condition check). -/
structure IterInput where
  t : ℚ
  resp : Option ℚ
  date : ℚ
  visible : Bool
  stop : Bool
deriving DecidableEq

/-- Session thread state: the trace of events so far and the `self.alive` flag. -/
structure St where
  events : List Ev
  alive : Bool

/-- How a (finite portion of a) run ends: `normal` means the `while` loop
exited because `self.alive` was false and lines 120-124 ran; `err e` means
an uncaught exception propagated out of `Session.run`, skipping
lines 120-124; `pending` means the supplied inputs were exhausted while
the loop was still alive (the run is still in progress). -/
inductive RunExit where
  | normal
  | pending
  | err (e : RunErr)
deriving DecidableEq, Repr

/-- The plot's x data (first component of `self.f.lines.get_data()`):
the timestamps of the points appended so far (backend.py lines 43-44). -/
def plotXs (evs : List Ev) : List ℚ :=
  evs.filterMap fun e => match e with | .plotPoint x _ => some x | _ => none

/-- The plot's y data: the temperature values appended so far (line 52). -/
def plotYs (evs : List Ev) : List ℝ :=
  evs.filterMap fun e => match e with | .plotPoint _ y => some y | _ => none

/-- The in-memory sample list `self.data` (backend.py line 118): the
`[date, T]` pairs appended so far, in order. -/
def dataOf (evs : List Ev) : List (ℚ × ℝ) :=
  evs.filterMap fun e => match e with | .appendData d T => some (d, T) | _ => none

/-- The device command strings written so far (`self.smu.write`). -/
def cmdsOf (evs : List Ev) : List String :=
  evs.filterMap fun e => match e with | .cmd s => some s | _ => none

/-- The lines written to the log file so far, in order. -/
def fileLinesOf (evs : List Ev) : List FileLine :=
  evs.filterMap fun e => match e with | .fileWrite l => some l | _ => none

/-- The heating-speed values displayed so far (backend.py lines 61-63). -/
def heatsOf (evs : List Ev) : List ℝ :=
  evs.filterMap fun e => match e with | .heatSet v => some v | _ => none

/-- The elapsed-clock readings recorded so far (backend.py line 106). -/
def elapsedOf (evs : List Ev) : List ℚ :=
  evs.filterMap fun e => match e with | .tick t => some t | _ => none

/-- The wall-clock timestamps recorded so far (backend.py line 115). -/
def stampsOf (evs : List Ev) : List ℚ :=
  evs.filterMap fun e => match e with | .takeDate d => some d | _ => none

/-- `Session.update_plot` (backend.py lines 31-70), abstracted to the
events it appends, the exception it raises (if any), and the value of
`self.alive` afterwards.  If the plot window is closed, `self.alive` is
set to False and the method returns -1 (lines 40-42).  Otherwise the point
is appended to the line data (lines 43-55); with `step = 50`, once
`i = len(x_data)` exceeds `step`, the heating speed
`(y_data[i-1] - y_data[i-step-1]) / (x_data[i-1] - x_data[i-step-1]).seconds * 60`
is computed and displayed (lines 56-63).  A ZeroDivisionError from that
division is not caught (`except IndexError` only, line 64) and propagates;
the list indices involved are in range when `i > step`, so the IndexError
handler is dead code and list accesses are modelled with `getD`.
The axis-limit adjustment (lines 46-51) and the relim/redraw calls
(lines 67-69) only affect the rendering and are not modelled. -/
noncomputable def update_plot (evs : List Ev) (x : ℚ) (y : ℝ) (visible : Bool) :
    List Ev × Option RunErr × Bool :=
  if visible = false then ([.plotClosed], none, false)
  else
    let xs := plotXs evs ++ [x]
    let ys := plotYs evs ++ [y]
    let i := xs.length
    if 50 < i then
      let den : ℤ := tdSeconds (xs.getD (i - 1) 0 - xs.getD (i - 51) 0)
      if den = 0 then ([.plotPoint x y], some .zeroDiv, true)
      else
        ([.plotPoint x y,
          .heatSet ((ys.getD (i - 1) 0 - ys.getD (i - 51) 0) / (den : ℝ) * 60)],
         none, true)
    else ([.plotPoint x y], none, true)

/-- The body of one `while self.alive` iteration (backend.py lines 106-119),
given the events so far: the events it appends, the exception it raises
(if any), and the value of `self.alive` after `update_plot`.  Program
order: elapsed reading (106), measurement command and read (108-110),
resistance print (111), conversion (112), temperature print (113),
sleep (114), wall-clock reading (115), file row if a file is open
(116-117), data append (118), plot update (119). -/
noncomputable def iterTrace (file : Bool) (inp : IterInput) (evs : List Ev) :
    List Ev × Option RunErr × Bool :=
  let pre : List Ev := [.tick inp.t, .cmd "print(smua.measure.r())", .readResp inp.resp]
  match inp.resp with
  | none => (pre, some .parseError, true)
  | some r =>
    match convert r with
    | .error e => (pre ++ [.printRes r], some e, true)
    | .ok T =>
      let mid := pre ++ [.printRes r, .printT T, .sleep50, .takeDate inp.date]
        ++ (if file then [Ev.fileWrite (.row inp.date inp.t r T)] else [])
        ++ [.appendData inp.date T]
      let res := update_plot (evs ++ mid) inp.date T inp.visible
      (mid ++ res.1, res.2.1, res.2.2)

/-- The events of backend.py lines 120-124, run when the `while` loop exits
normally: `print('Finished')`, closing the log file if one was opened,
forcing the output off, and notifying the controller with the success
status message. -/
def cleanupEvents (file : Bool) : List Ev :=
  [.printFinished] ++ (if file then [Ev.fileClose] else [])
    ++ [.cmd "smua.source.output = smua.OUTPUT_OFF",
        .notify true "Closed plotting window"]

/-- The `while self.alive` loop of `Session.run` (backend.py lines 105-124)
over a finite list of per-iteration inputs.  When `self.alive` is false at
the loop-condition check, the loop exits and lines 120-124 run; an uncaught
exception propagates immediately with no cleanup; after a successful
iteration the GUI stop flag takes effect at the next condition check. -/
noncomputable def loop (file : Bool) : List IterInput → St → St × RunExit
  | [], st =>
    if st.alive then (st, .pending)
    else ({ st with events := st.events ++ cleanupEvents file }, .normal)
  | inp :: rest, st =>
    if st.alive then
      match iterTrace file inp st.events with
      | (tr, some e, _) => ({ st with events := st.events ++ tr }, .err e)
      | (tr, none, alive2) =>
        loop file rest { events := st.events ++ tr, alive := alive2 && !inp.stop }
    else ({ st with events := st.events ++ cleanupEvents file }, .normal)

/-- The device configuration sequence of `Session.setup_device`
(backend.py lines 126-140), written before the loop starts. -/
def setup_device_cmds : List String :=
  ["*RST", "smua.reset()", "smua.source.func = smua.OUTPUT_DCAMPS",
   "smua.source.leveli = 1e-3", "smua.measure.autorangev = smua.AUTORANGE_ON",
   "smua.measure.nplc = 5", "smua.measure.delay = 0.1",
   "smua.measure.rangev = 20", "smua.measure.rangei = 1e-3",
   "smua.measure.r(smua.nvbuffer1)"]

/-- The events of backend.py lines 94-104, before the loop is entered: the
two header lines written when an output file was requested (lines 95-98),
the `setup_device` command sequence (line 99), and enabling the output
(line 102). -/
def initEvents (file : Bool) : List Ev :=
  (if file then [Ev.fileWrite .headerStarted, Ev.fileWrite .headerColumns] else [])
    ++ setup_device_cmds.map Ev.cmd
    ++ [.cmd "smua.source.output = smua.OUTPUT_ON"]

/-- `Session.run` (backend.py lines 89-124): `self.alive = True`, the file
header and device setup, then the polling loop over the supplied inputs. -/
noncomputable def session_run (file : Bool) (inputs : List IterInput) : St × RunExit :=
  loop file inputs { events := initEvents file, alive := true }

/-- Console messages printed by `Session.connect_to_device`
(backend.py lines 80-87): the `Found devices:` print with the discovered
resource list, the `No device found. Please connect one.` print, and the
`Connected to` print naming `devs[0]`. -/
inductive ConsoleMsg where
  | foundDevices (devs : List String)
  | noDeviceFound
  | connectedTo (dev : String)
deriving DecidableEq

/-- `Session.connect_to_device` (backend.py lines 72-87): list resources,
print them, try to open `devs[n]`; on IndexError print the no-device
message and return with `self.smu` never assigned, otherwise print
`Connected to devs[0]` and keep the handle.  Returns the printed messages
and the optional `self.smu` handle. -/
def connect_to_device (devs : List String) (n : Nat) : List ConsoleMsg × Option String :=
  if h : n < devs.length then
    ([.foundDevices devs, .connectedTo (devs.getD 0 "")], some (devs.get ⟨n, h⟩))
  else
    ([.foundDevices devs, .noDeviceFound], none)

/-- Python AttributeError: raised by the first `self.smu.write` of
`reset_device` (backend.py line 147) when `connect_to_device` found no
device and therefore never assigned `self.smu` (lines 82-85). -/
inductive InitErr where
  | attributeError
deriving DecidableEq

/-- The command sequence of `Session.reset_device` (backend.py lines 142-152). -/
def reset_device_cmds : List String :=
  ["smua.reset()", "smua.source.func = smua.OUTPUT_DCVOLTS",
   "smua.source.levelv = 0.0", "smua.source.autorangev = smua.AUTORANGE_ON",
   "smua.measure.autorangei = smua.AUTORANGE_ON",
   "smua.source.output = smua.OUTPUT_OFF"]

/-- Observable outcome of constructing a `Session` (backend.py lines 11-22):
the console messages printed and the device commands issued. -/
structure InitOut where
  msgs : List ConsoleMsg
  devCmds : List String
deriving DecidableEq

/-- `Session.__init__` (backend.py lines 11-22): store the fields, then
`connect_to_device()`, `reset_device()`, `prepare_plot()`.  When no device
was found, `self.smu` was never assigned, so `reset_device`'s first
`self.smu.write` raises AttributeError and construction aborts with no
device command issued. -/
def session_init (devs : List String) : InitOut × Option InitErr :=
  match connect_to_device devs 0 with
  | (ms, none) => ({ msgs := ms, devCmds := [] }, some .attributeError)
  | (ms, some _) => ({ msgs := ms, devCmds := reset_device_cmds }, none)

/-- `MainWindow.startmiu` (interface.py lines 89-116) composed with the
acquisition thread: `backend.Session(file, self)` is constructed
(interface.py line 113) and only on success is `self.messung.start()`
(line 114) reached, which invokes `Session.run`.  A constructor exception
propagates out of the click handler, so no run ever starts (`none`). -/
noncomputable def startmiu (devs : List String) (file : Bool) (inputs : List IterInput) :
    (InitOut × Option InitErr) × Option (St × RunExit) :=
  match session_init devs with
  | (o, some e) => ((o, some e), none)
  | (o, none) => ((o, none), some (session_run file inputs))

/-- The GUI status-bar message for a manual stop (interface.py line 125). -/
def manualStopMsg : String := "Manually stopped"

/-- The number of non-self parameters in the definition
`def finish(self)` (backend.py line 154). -/
def finishParamCount : Nat := 0

/-- The number of positional arguments passed at the call
`self.messung.finish(False)` (interface.py line 124). -/
def finishArgCount : Nat := 1

/-- Python TypeError, raised when a call's positional argument count does
not match the function definition. -/
inductive PyErr where
  | typeError
deriving DecidableEq

/-- The effect of `MainWindow.stopmiu`'s call `self.messung.finish(False)`
(interface.py line 124) on the session's running flag: Python raises
TypeError when the positional argument count does not match the definition
`def finish(self)` (backend.py line 154), and only when the call succeeds
does the body `self.alive = False` (line 159) run. -/
def stopmiu_finish (alive : Bool) : Except PyErr Unit × Bool :=
  if finishArgCount = finishParamCount then (.ok (), false)
  else (.error .typeError, alive)

/-- Constructor test: is this file line one of the two header lines? -/
def isHeaderLine : FileLine → Bool
  | .row _ _ _ _ => false
  | _ => true

/-- Constructor test: is this event one of the per-sample recording steps
(wall-clock timestamp, file row, data append, plot forward)? -/
def isRecordEv : Ev → Bool
  | .takeDate _ => true
  | .fileWrite _ => true
  | .appendData _ _ => true
  | .plotPoint _ _ => true
  | _ => false

/-- Constructor test: is this event the 50 ms sleep? -/
def isSleepEv : Ev → Bool
  | .sleep50 => true
  | _ => false

/-- Constructor test: is this event a data append? -/
def isAppendEv : Ev → Bool
  | .appendData _ _ => true
  | _ => false

/-- Constructor test: is this event a file write? -/
def isFileWriteEv : Ev → Bool
  | .fileWrite _ => true
  | _ => false

/-- Constructor test: is this event a plot-point forward? -/
def isPlotPointEv : Ev → Bool
  | .plotPoint _ _ => true
  | _ => false

/-- Constructor test: is this event the plot-window-closed observation? -/
def isPlotClosedEv : Ev → Bool
  | .plotClosed => true
  | _ => false

/-- An iteration input on which the iteration body cannot fail before the
heating-speed division and does not end the run: the response parses, the
radicand is non-negative, the plot window is visible, and the GUI stop
flag is not set during the iteration. -/
def basicClean (inp : IterInput) : Prop :=
  inp.resp.isSome = true ∧ 0 ≤ radicand (inp.resp.getD 0)
    ∧ inp.visible = true ∧ inp.stop = false

instance (inp : IterInput) : Decidable (basicClean inp) := by
  unfold basicClean; infer_instance

/-- The iteration body completed without raising an exception. -/
def iterOk (file : Bool) (inp : IterInput) (evs : List Ev) : Prop :=
  (iterTrace file inp evs).2.1 = none

/-- The expected event trace of a sequence of `basicClean` iterations that
trigger no ZeroDivisionError, given the plot data accumulated so far. -/
noncomputable def cleanEvs (file : Bool) : List IterInput → List ℚ → List ℝ → List Ev
  | [], _, _ => []
  | inp :: rest, xs, ys =>
    ([Ev.tick inp.t, Ev.cmd "print(smua.measure.r())", Ev.readResp inp.resp,
      Ev.printRes (inp.resp.getD 0), Ev.printT (tval (inp.resp.getD 0)),
      Ev.sleep50, Ev.takeDate inp.date]
      ++ (if file then
            [Ev.fileWrite (.row inp.date inp.t (inp.resp.getD 0) (tval (inp.resp.getD 0)))]
          else [])
      ++ [Ev.appendData inp.date (tval (inp.resp.getD 0)),
          Ev.plotPoint inp.date (tval (inp.resp.getD 0))]
      ++ (if 50 < xs.length + 1 then
            [Ev.heatSet ((tval (inp.resp.getD 0) - ys.getD (xs.length - 50) 0)
              / ((tdSeconds (inp.date - xs.getD (xs.length - 50) 0) : ℤ) : ℝ) * 60)]
          else []))
    ++ cleanEvs file rest (xs ++ [inp.date]) (ys ++ [tval (inp.resp.getD 0)])

/-- The heating-speed values the code displays over a sequence of clean
iterations, given the plot data accumulated so far: when sample index `m`
(0-based, `m = xs.length`) reaches 50 or more, the displayed value is
`(T[m] - T[m-50])` divided by the whole-second truncation of the wall-clock
difference `date[m] - date[m-50]`, times 60. -/
noncomputable def heatValsAux : List ℚ → List ℝ → List IterInput → List ℝ
  | _, _, [] => []
  | xs, ys, inp :: rest =>
    (if 50 < xs.length + 1 then
       [(tval (inp.resp.getD 0) - ys.getD (xs.length - 50) 0)
          / ((tdSeconds (inp.date - xs.getD (xs.length - 50) 0) : ℤ) : ℝ) * 60]
     else [])
    ++ heatValsAux (xs ++ [inp.date]) (ys ++ [tval (inp.resp.getD 0)]) rest

/-- Concrete run refuting C4: 51 clean iterations polled every 10 ms, so
the 51st sample's wall-clock difference to the 1st is 0.5 s, whose
whole-second truncation is 0. -/
def c4cexInputs : List IterInput :=
  (List.range 51).map fun k => ⟨(k : ℚ) / 100, some 0, (k : ℚ) / 100, true, false⟩

/-- Concrete clean run for C4's witness: 51 iterations polled 1 s apart. -/
def c4okInputs : List IterInput :=
  (List.range 51).map fun k => ⟨(k : ℚ), some 0, (k : ℚ), true, false⟩

/-- The events of a successful iteration body up to and including the data
append (backend.py lines 106-118), for a parsed resistance `r`. -/
noncomputable def iterMid (file : Bool) (inp : IterInput) (r : ℚ) : List Ev :=
  [.tick inp.t, .cmd "print(smua.measure.r())", .readResp (some r),
   .printRes r, .printT (tval r), .sleep50, .takeDate inp.date]
  ++ (if file then [Ev.fileWrite (.row inp.date inp.t r (tval r))] else [])
  ++ [.appendData inp.date (tval r)]

/-- The fraction constants of `radicand` equal the decimal literals of
backend.py line 112. -/
theorem radicand_eq_decimal (r : ℚ) : radicand r = -0.00232 * r + 17.59246 := by
  norm_num [radicand]

/-- Casting the radicand to the reals gives the claim's real-valued radicand. -/
theorem radicand_cast (r : ℚ) :
    ((radicand r : ℚ) : ℝ) = -0.00232 * (r : ℝ) + 17.59246 := by
  rw [radicand]; push_cast; norm_num

theorem convert_of_nonneg {r : ℚ} (h : 0 ≤ radicand r) :
    convert r = .ok (tval r) := by
  rw [convert, if_neg (not_lt.2 h)]

theorem convert_of_neg {r : ℚ} (h : radicand r < 0) :
    convert r = .error .domainError := by
  rw [convert, if_pos h]

theorem plotXs_append (a b : List Ev) : plotXs (a ++ b) = plotXs a ++ plotXs b :=
  List.filterMap_append a b _

theorem plotYs_append (a b : List Ev) : plotYs (a ++ b) = plotYs a ++ plotYs b :=
  List.filterMap_append a b _

theorem dataOf_append (a b : List Ev) : dataOf (a ++ b) = dataOf a ++ dataOf b :=
  List.filterMap_append a b _

theorem cmdsOf_append (a b : List Ev) : cmdsOf (a ++ b) = cmdsOf a ++ cmdsOf b :=
  List.filterMap_append a b _

theorem fileLinesOf_append (a b : List Ev) :
    fileLinesOf (a ++ b) = fileLinesOf a ++ fileLinesOf b :=
  List.filterMap_append a b _

theorem heatsOf_append (a b : List Ev) : heatsOf (a ++ b) = heatsOf a ++ heatsOf b :=
  List.filterMap_append a b _

theorem elapsedOf_append (a b : List Ev) :
    elapsedOf (a ++ b) = elapsedOf a ++ elapsedOf b :=
  List.filterMap_append a b _

theorem stampsOf_append (a b : List Ev) :
    stampsOf (a ++ b) = stampsOf a ++ stampsOf b :=
  List.filterMap_append a b _

/-- The plot's x and y lists always have the same length: only `plotPoint`
events contribute, and each contributes to both. -/
theorem plotYs_length (evs : List Ev) : (plotYs evs).length = (plotXs evs).length := by
  induction evs with
  | nil => rfl
  | cons e rest ih => cases e <;> simp [plotXs, plotYs, List.filterMap_cons] at ih ⊢ <;> omega

theorem update_plot_hidden (evs : List Ev) (x : ℚ) (y : ℝ) :
    update_plot evs x y false = ([.plotClosed], none, false) := by
  rw [update_plot]; simp

theorem update_plot_small (evs : List Ev) (x : ℚ) (y : ℝ)
    (h : ¬ 50 < (plotXs evs).length + 1) :
    update_plot evs x y true = ([.plotPoint x y], none, true) := by
  rw [update_plot]
  simp only [Bool.true_eq_false, if_false, List.length_append, List.length_singleton]
  rw [if_neg h]

theorem update_plot_zero (evs : List Ev) (x : ℚ) (y : ℝ)
    (h : 50 < (plotXs evs).length + 1)
    (hz : tdSeconds (x - (plotXs evs).getD ((plotXs evs).length - 50) 0) = 0) :
    update_plot evs x y true = ([.plotPoint x y], some .zeroDiv, true) := by
  have hlen : (plotXs evs ++ [x]).getD ((plotXs evs).length + 1 - 1) 0 = x := by
    simp [List.getD_append_right]
  have hlt : (plotXs evs).length + 1 - 51 < (plotXs evs).length := by omega
  have hleft : (plotXs evs ++ [x]).getD ((plotXs evs).length + 1 - 51) 0
      = (plotXs evs).getD ((plotXs evs).length - 50) 0 := by
    have hidx : (plotXs evs).length + 1 - 51 = (plotXs evs).length - 50 := by omega
    rw [List.getD_append _ _ _ _ hlt, hidx]
  rw [update_plot]
  simp only [Bool.true_eq_false, if_false, List.length_append, List.length_singleton]
  rw [if_pos h, hlen, hleft, if_pos hz]

theorem update_plot_heat (evs : List Ev) (x : ℚ) (y : ℝ)
    (h : 50 < (plotXs evs).length + 1)
    (hz : tdSeconds (x - (plotXs evs).getD ((plotXs evs).length - 50) 0) ≠ 0) :
    update_plot evs x y true
      = ([.plotPoint x y,
          .heatSet ((y - (plotYs evs).getD ((plotXs evs).length - 50) 0)
            / ((tdSeconds (x - (plotXs evs).getD ((plotXs evs).length - 50) 0) : ℤ) : ℝ) * 60)],
         none, true) := by
  have hlen : (plotXs evs ++ [x]).getD ((plotXs evs).length + 1 - 1) 0 = x := by
    simp [List.getD_append_right]
  have hlt : (plotXs evs).length + 1 - 51 < (plotXs evs).length := by omega
  have hleft : (plotXs evs ++ [x]).getD ((plotXs evs).length + 1 - 51) 0
      = (plotXs evs).getD ((plotXs evs).length - 50) 0 := by
    have hidx : (plotXs evs).length + 1 - 51 = (plotXs evs).length - 50 := by omega
    rw [List.getD_append _ _ _ _ hlt, hidx]
  have hylen : (plotYs evs ++ [y]).getD ((plotXs evs).length + 1 - 1) 0 = y := by
    rw [List.getD_append_right]
    · simp [plotYs_length]
    · rw [plotYs_length]; omega
  have hylt : (plotXs evs).length + 1 - 51 < (plotYs evs).length := by
    rw [plotYs_length]; omega
  have hyleft : (plotYs evs ++ [y]).getD ((plotXs evs).length + 1 - 51) 0
      = (plotYs evs).getD ((plotXs evs).length - 50) 0 := by
    have hidx : (plotXs evs).length + 1 - 51 = (plotXs evs).length - 50 := by omega
    rw [List.getD_append _ _ _ _ hylt, hidx]
  rw [update_plot]
  simp only [Bool.true_eq_false, if_false, List.length_append, List.length_singleton]
  rw [if_pos h, hlen, hleft, hylen, hyleft, if_neg hz]

theorem iterTrace_parse (file : Bool) (inp : IterInput) (evs : List Ev)
    (h : inp.resp = none) :
    iterTrace file inp evs
      = ([.tick inp.t, .cmd "print(smua.measure.r())", .readResp none],
         some .parseError, true) := by
  simp only [iterTrace, h]

theorem iterTrace_domain (file : Bool) (inp : IterInput) (evs : List Ev) (r : ℚ)
    (h : inp.resp = some r) (hr : radicand r < 0) :
    iterTrace file inp evs
      = ([.tick inp.t, .cmd "print(smua.measure.r())", .readResp (some r), .printRes r],
         some .domainError, true) := by
  simp only [iterTrace, h, convert_of_neg hr]
  simp

theorem iterTrace_ok (file : Bool) (inp : IterInput) (evs : List Ev) (r : ℚ)
    (h : inp.resp = some r) (hr : 0 ≤ radicand r) :
    iterTrace file inp evs
      = (iterMid file inp r
           ++ (update_plot (evs ++ iterMid file inp r) inp.date (tval r) inp.visible).1,
         (update_plot (evs ++ iterMid file inp r) inp.date (tval r) inp.visible).2.1,
         (update_plot (evs ++ iterMid file inp r) inp.date (tval r) inp.visible).2.2) := by
  simp only [iterTrace, h, convert_of_nonneg hr, iterMid]
  simp

theorem loop_nil_alive (file : Bool) (st : St) (h : st.alive = true) :
    loop file [] st = (st, .pending) := by
  simp [loop, h]

theorem loop_dead (file : Bool) (ins : List IterInput) (st : St) (h : st.alive = false) :
    loop file ins st = ({ st with events := st.events ++ cleanupEvents file }, .normal) := by
  cases ins <;> simp [loop, h]

theorem loop_cons_err (file : Bool) (i : IterInput) (ins : List IterInput) (st : St)
    (tr : List Ev) (e : RunErr) (b : Bool) (ha : st.alive = true)
    (h : iterTrace file i st.events = (tr, some e, b)) :
    loop file (i :: ins) st = ({ st with events := st.events ++ tr }, .err e) := by
  simp [loop, ha, h]

theorem loop_cons_ok (file : Bool) (i : IterInput) (ins : List IterInput) (st : St)
    (tr : List Ev) (alive2 : Bool) (ha : st.alive = true)
    (h : iterTrace file i st.events = (tr, none, alive2)) :
    loop file (i :: ins) st
      = loop file ins { events := st.events ++ tr, alive := alive2 && !i.stop } := by
  simp [loop, ha, h]

theorem plotXs_iterMid (file : Bool) (inp : IterInput) (r : ℚ) :
    plotXs (iterMid file inp r) = [] := by
  cases file <;> simp [iterMid, plotXs]

theorem plotYs_iterMid (file : Bool) (inp : IterInput) (r : ℚ) :
    plotYs (iterMid file inp r) = [] := by
  cases file <;> simp [iterMid, plotYs]

theorem dataOf_iterMid (file : Bool) (inp : IterInput) (r : ℚ) :
    dataOf (iterMid file inp r) = [(inp.date, tval r)] := by
  cases file <;> simp [iterMid, dataOf]

theorem cmdsOf_iterMid (file : Bool) (inp : IterInput) (r : ℚ) :
    cmdsOf (iterMid file inp r) = ["print(smua.measure.r())"] := by
  cases file <;> simp [iterMid, cmdsOf]

theorem fileLinesOf_iterMid (file : Bool) (inp : IterInput) (r : ℚ) :
    fileLinesOf (iterMid file inp r)
      = if file then [FileLine.row inp.date inp.t r (tval r)] else [] := by
  cases file <;> simp [iterMid, fileLinesOf]

theorem heatsOf_iterMid (file : Bool) (inp : IterInput) (r : ℚ) :
    heatsOf (iterMid file inp r) = [] := by
  cases file <;> simp [iterMid, heatsOf]

theorem elapsedOf_iterMid (file : Bool) (inp : IterInput) (r : ℚ) :
    elapsedOf (iterMid file inp r) = [inp.t] := by
  cases file <;> simp [iterMid, elapsedOf]

theorem stampsOf_iterMid (file : Bool) (inp : IterInput) (r : ℚ) :
    stampsOf (iterMid file inp r) = [inp.date] := by
  cases file <;> simp [iterMid, stampsOf]

theorem plotClosed_iterMid (file : Bool) (inp : IterInput) (r : ℚ) :
    (iterMid file inp r).any isPlotClosedEv = false := by
  cases file <;> simp [iterMid, isPlotClosedEv]

theorem cmdsOf_init (file : Bool) :
    cmdsOf (initEvents file)
      = setup_device_cmds ++ ["smua.source.output = smua.OUTPUT_ON"] := by
  cases file <;> rfl

theorem plotXs_init (file : Bool) : plotXs (initEvents file) = [] := by
  cases file <;> rfl

theorem plotYs_init (file : Bool) : plotYs (initEvents file) = [] := by
  cases file <;> rfl

theorem dataOf_init (file : Bool) : dataOf (initEvents file) = [] := by
  cases file <;> rfl

theorem heatsOf_init (file : Bool) : heatsOf (initEvents file) = [] := by
  cases file <;> rfl

theorem elapsedOf_init (file : Bool) : elapsedOf (initEvents file) = [] := by
  cases file <;> rfl

theorem stampsOf_init (file : Bool) : stampsOf (initEvents file) = [] := by
  cases file <;> rfl

theorem fileLinesOf_init (file : Bool) :
    fileLinesOf (initEvents file)
      = if file then [FileLine.headerStarted, FileLine.headerColumns] else [] := by
  cases file <;> rfl

theorem plotClosed_init (file : Bool) : (initEvents file).any isPlotClosedEv = false := by
  cases file <;> rfl

theorem dataOf_cleanup (file : Bool) : dataOf (cleanupEvents file) = [] := by
  cases file <;> rfl

theorem heatsOf_cleanup (file : Bool) : heatsOf (cleanupEvents file) = [] := by
  cases file <;> rfl

theorem elapsedOf_cleanup (file : Bool) : elapsedOf (cleanupEvents file) = [] := by
  cases file <;> rfl

theorem stampsOf_cleanup (file : Bool) : stampsOf (cleanupEvents file) = [] := by
  cases file <;> rfl

theorem fileLinesOf_cleanup (file : Bool) : fileLinesOf (cleanupEvents file) = [] := by
  cases file <;> rfl

theorem plotClosed_cleanup (file : Bool) :
    (cleanupEvents file).any isPlotClosedEv = false := by
  cases file <;> rfl

theorem notify_mem_cleanup (file : Bool) :
    Ev.notify true "Closed plotting window" ∈ cleanupEvents file := by
  cases file <;> simp [cleanupEvents]

theorem outputOff_mem_cleanup (file : Bool) :
    "smua.source.output = smua.OUTPUT_OFF" ∈ cmdsOf (cleanupEvents file) := by
  cases file <;> simp [cleanupEvents, cmdsOf]

theorem fileClose_mem_cleanup : Ev.fileClose ∈ cleanupEvents true := by
  simp [cleanupEvents]

/-- Characterization of the polling loop over `basicClean` inputs that
trigger no ZeroDivisionError: the run stays alive, ends `pending`, and its
trace extends the starting trace by exactly the clean-iteration events. -/
theorem loop_clean (file : Bool) (inputs : List IterInput) : ∀ (st : St),
    st.alive = true →
    (∀ inp ∈ inputs, basicClean inp) →
    (loop file inputs st).2 ≠ RunExit.err RunErr.zeroDiv →
    (loop file inputs st).1.events
        = st.events ++ cleanEvs file inputs (plotXs st.events) (plotYs st.events)
      ∧ (loop file inputs st).1.alive = true
      ∧ (loop file inputs st).2 = RunExit.pending := by
  induction inputs with
  | nil =>
    intro st ha _ _
    rw [loop_nil_alive _ _ ha]
    simp [cleanEvs, ha]
  | cons i rest ih =>
    intro st ha hc hz
    obtain ⟨hsome, hrad, hvis, hstop⟩ := hc i (List.mem_cons_self i rest)
    obtain ⟨r, hr⟩ := Option.isSome_iff_exists.mp hsome
    have hrget : i.resp.getD 0 = r := by rw [hr]; rfl
    have hrad' : 0 ≤ radicand r := by rwa [hrget] at hrad
    have hpx : plotXs (st.events ++ iterMid file i r) = plotXs st.events := by
      rw [plotXs_append, plotXs_iterMid, List.append_nil]
    have hpy : plotYs (st.events ++ iterMid file i r) = plotYs st.events := by
      rw [plotYs_append, plotYs_iterMid, List.append_nil]
    by_cases h50 : 50 < (plotXs st.events).length + 1
    · by_cases hden :
        tdSeconds (i.date - (plotXs st.events).getD ((plotXs st.events).length - 50) 0) = 0
      · -- the heating-speed division raises ZeroDivisionError: excluded by `hz`
        have hup : update_plot (st.events ++ iterMid file i r) i.date (tval r) i.visible
            = ([.plotPoint i.date (tval r)], some .zeroDiv, true) := by
          rw [hvis]
          rw [update_plot_zero _ _ _ (by rwa [hpx]) (by rwa [hpx])]
        have htr := iterTrace_ok file i st.events r hr hrad'
        rw [hup] at htr
        have := loop_cons_err file i rest st _ _ _ ha htr
        rw [this] at hz
        exact absurd rfl hz
      · -- heating value displayed (or no heating yet is impossible here)
        have hup : update_plot (st.events ++ iterMid file i r) i.date (tval r) i.visible
            = ([.plotPoint i.date (tval r),
                .heatSet ((tval r - (plotYs st.events).getD ((plotXs st.events).length - 50) 0)
                  / ((tdSeconds (i.date - (plotXs st.events).getD ((plotXs st.events).length - 50) 0) : ℤ) : ℝ) * 60)],
               none, true) := by
          rw [hvis]
          rw [update_plot_heat _ _ _ (by rwa [hpx]) (by rwa [hpx])]
          rw [hpx, hpy]
        have htr := iterTrace_ok file i st.events r hr hrad'
        rw [hup] at htr
        have hstep := loop_cons_ok file i rest st _ _ ha htr
        rw [hstep] at hz ⊢
        have ha2 : (true && !i.stop) = true := by rw [hstop]; rfl
        obtain ⟨he, hal, hex⟩ := ih _ (by exact ha2) (fun x hx => hc x (List.mem_cons_of_mem _ hx)) hz
        refine ⟨?_, hal, hex⟩
        rw [he]
        have hx2 : plotXs (st.events
            ++ (iterMid file i r ++ [Ev.plotPoint i.date (tval r),
                 Ev.heatSet ((tval r - (plotYs st.events).getD ((plotXs st.events).length - 50) 0)
                   / ((tdSeconds (i.date - (plotXs st.events).getD ((plotXs st.events).length - 50) 0) : ℤ) : ℝ) * 60)]))
            = plotXs st.events ++ [i.date] := by
          rw [plotXs_append, plotXs_append, plotXs_iterMid]
          simp [plotXs]
        have hy2 : plotYs (st.events
            ++ (iterMid file i r ++ [Ev.plotPoint i.date (tval r),
                 Ev.heatSet ((tval r - (plotYs st.events).getD ((plotXs st.events).length - 50) 0)
                   / ((tdSeconds (i.date - (plotXs st.events).getD ((plotXs st.events).length - 50) 0) : ℤ) : ℝ) * 60)]))
            = plotYs st.events ++ [tval r] := by
          rw [plotYs_append, plotYs_append, plotYs_iterMid]
          simp [plotYs]
        rw [hx2, hy2]
        simp only [cleanEvs, hrget, if_pos h50, iterMid]
        simp [List.append_assoc]
        exact hr.symm
    · -- fewer than 51 points: no heating computation
      have hup : update_plot (st.events ++ iterMid file i r) i.date (tval r) i.visible
          = ([.plotPoint i.date (tval r)], none, true) := by
        rw [hvis]
        exact update_plot_small _ _ _ (by rwa [hpx])
      have htr := iterTrace_ok file i st.events r hr hrad'
      rw [hup] at htr
      have hstep := loop_cons_ok file i rest st _ _ ha htr
      rw [hstep] at hz ⊢
      have ha2 : (true && !i.stop) = true := by rw [hstop]; rfl
      obtain ⟨he, hal, hex⟩ := ih _ (by exact ha2) (fun x hx => hc x (List.mem_cons_of_mem _ hx)) hz
      refine ⟨?_, hal, hex⟩
      rw [he]
      have hx2 : plotXs (st.events ++ (iterMid file i r ++ [Ev.plotPoint i.date (tval r)]))
          = plotXs st.events ++ [i.date] := by
        rw [plotXs_append, plotXs_append, plotXs_iterMid]
        simp [plotXs]
      have hy2 : plotYs (st.events ++ (iterMid file i r ++ [Ev.plotPoint i.date (tval r)]))
          = plotYs st.events ++ [tval r] := by
        rw [plotYs_append, plotYs_append, plotYs_iterMid]
        simp [plotYs]
      rw [hx2, hy2]
      simp only [cleanEvs, hrget, if_neg h50, iterMid]
      simp [List.append_assoc]
      exact hr.symm

theorem dataOf_cleanEvs (file : Bool) :
    ∀ (inputs : List IterInput) (xs : List ℚ) (ys : List ℝ),
    dataOf (cleanEvs file inputs xs ys)
      = inputs.map (fun inp => (inp.date, tval (inp.resp.getD 0))) := by
  intro inputs
  induction inputs with
  | nil => intro xs ys; simp [cleanEvs, dataOf]
  | cons i rest ih =>
    intro xs ys
    simp only [cleanEvs]
    rw [dataOf_append, ih]
    cases file <;> by_cases h : 50 < xs.length + 1 <;> simp [dataOf, h]

theorem fileLinesOf_cleanEvs (file : Bool) :
    ∀ (inputs : List IterInput) (xs : List ℚ) (ys : List ℝ),
    fileLinesOf (cleanEvs file inputs xs ys)
      = if file then
          inputs.map (fun inp =>
            FileLine.row inp.date inp.t (inp.resp.getD 0) (tval (inp.resp.getD 0)))
        else [] := by
  intro inputs
  induction inputs with
  | nil => intro xs ys; cases file <;> simp [cleanEvs, fileLinesOf]
  | cons i rest ih =>
    intro xs ys
    simp only [cleanEvs]
    rw [fileLinesOf_append, ih]
    cases file <;> by_cases h : 50 < xs.length + 1 <;> simp [fileLinesOf, h]

theorem plotXs_cleanEvs (file : Bool) :
    ∀ (inputs : List IterInput) (xs : List ℚ) (ys : List ℝ),
    plotXs (cleanEvs file inputs xs ys) = inputs.map IterInput.date := by
  intro inputs
  induction inputs with
  | nil => intro xs ys; simp [cleanEvs, plotXs]
  | cons i rest ih =>
    intro xs ys
    simp only [cleanEvs]
    rw [plotXs_append, ih]
    cases file <;> by_cases h : 50 < xs.length + 1 <;> simp [plotXs, h]

theorem elapsedOf_cleanEvs (file : Bool) :
    ∀ (inputs : List IterInput) (xs : List ℚ) (ys : List ℝ),
    elapsedOf (cleanEvs file inputs xs ys) = inputs.map IterInput.t := by
  intro inputs
  induction inputs with
  | nil => intro xs ys; simp [cleanEvs, elapsedOf]
  | cons i rest ih =>
    intro xs ys
    simp only [cleanEvs]
    rw [elapsedOf_append, ih]
    cases file <;> by_cases h : 50 < xs.length + 1 <;> simp [elapsedOf, h]

theorem stampsOf_cleanEvs (file : Bool) :
    ∀ (inputs : List IterInput) (xs : List ℚ) (ys : List ℝ),
    stampsOf (cleanEvs file inputs xs ys) = inputs.map IterInput.date := by
  intro inputs
  induction inputs with
  | nil => intro xs ys; simp [cleanEvs, stampsOf]
  | cons i rest ih =>
    intro xs ys
    simp only [cleanEvs]
    rw [stampsOf_append, ih]
    cases file <;> by_cases h : 50 < xs.length + 1 <;> simp [stampsOf, h]

theorem heatsOf_cleanEvs (file : Bool) :
    ∀ (inputs : List IterInput) (xs : List ℚ) (ys : List ℝ),
    heatsOf (cleanEvs file inputs xs ys) = heatValsAux xs ys inputs := by
  intro inputs
  induction inputs with
  | nil => intro xs ys; simp [cleanEvs, heatValsAux, heatsOf]
  | cons i rest ih =>
    intro xs ys
    simp only [cleanEvs, heatValsAux]
    rw [heatsOf_append, ih]
    cases file <;> by_cases h : 50 < xs.length + 1 <;> simp [heatsOf, h]

/-- With 50 or fewer samples in total, no heating-speed value is produced. -/
theorem heatValsAux_short :
    ∀ (inputs : List IterInput) (xs : List ℚ) (ys : List ℝ),
    xs.length + inputs.length ≤ 50 → heatValsAux xs ys inputs = [] := by
  intro inputs
  induction inputs with
  | nil => intro xs ys _; rfl
  | cons i rest ih =>
    intro xs ys h
    simp only [List.length_cons] at h
    rw [heatValsAux, if_neg (by omega)]
    rw [List.nil_append]
    exact ih _ _ (by simp; omega)

/-- The events `update_plot` appends are one of three shapes: the single
closed-window observation, the single appended point, or the appended
point followed by a heating-speed display. -/
theorem update_plot_shape (evs : List Ev) (x : ℚ) (y : ℝ) (v : Bool) :
    (update_plot evs x y v).1 = [.plotClosed]
    ∨ (update_plot evs x y v).1 = [.plotPoint x y]
    ∨ ∃ w, (update_plot evs x y v).1 = [.plotPoint x y, .heatSet w] := by
  cases v with
  | false => rw [update_plot_hidden]; exact Or.inl rfl
  | true =>
    by_cases h50 : 50 < (plotXs evs).length + 1
    · by_cases hden :
        tdSeconds (x - (plotXs evs).getD ((plotXs evs).length - 50) 0) = 0
      · rw [update_plot_zero _ _ _ h50 hden]; exact Or.inr (Or.inl rfl)
      · rw [update_plot_heat _ _ _ h50 hden]; exact Or.inr (Or.inr ⟨_, rfl⟩)
    · rw [update_plot_small _ _ _ h50]; exact Or.inr (Or.inl rfl)

theorem dataOf_update_plot (evs : List Ev) (x : ℚ) (y : ℝ) (v : Bool) :
    dataOf (update_plot evs x y v).1 = [] := by
  rcases update_plot_shape evs x y v with h | h | ⟨w, h⟩ <;> rw [h] <;> simp [dataOf]

theorem cmdsOf_update_plot (evs : List Ev) (x : ℚ) (y : ℝ) (v : Bool) :
    cmdsOf (update_plot evs x y v).1 = [] := by
  rcases update_plot_shape evs x y v with h | h | ⟨w, h⟩ <;> rw [h] <;> simp [cmdsOf]

theorem fileLinesOf_update_plot (evs : List Ev) (x : ℚ) (y : ℝ) (v : Bool) :
    fileLinesOf (update_plot evs x y v).1 = [] := by
  rcases update_plot_shape evs x y v with h | h | ⟨w, h⟩ <;> rw [h] <;> simp [fileLinesOf]

theorem elapsedOf_update_plot (evs : List Ev) (x : ℚ) (y : ℝ) (v : Bool) :
    elapsedOf (update_plot evs x y v).1 = [] := by
  rcases update_plot_shape evs x y v with h | h | ⟨w, h⟩ <;> rw [h] <;> simp [elapsedOf]

theorem stampsOf_update_plot (evs : List Ev) (x : ℚ) (y : ℝ) (v : Bool) :
    stampsOf (update_plot evs x y v).1 = [] := by
  rcases update_plot_shape evs x y v with h | h | ⟨w, h⟩ <;> rw [h] <;> simp [stampsOf]

theorem plotClosed_update_plot_open (evs : List Ev) (x : ℚ) (y : ℝ) :
    (update_plot evs x y true).1.any isPlotClosedEv = false := by
  by_cases h50 : 50 < (plotXs evs).length + 1
  · by_cases hden :
      tdSeconds (x - (plotXs evs).getD ((plotXs evs).length - 50) 0) = 0
    · rw [update_plot_zero _ _ _ h50 hden]; simp [isPlotClosedEv]
    · rw [update_plot_heat _ _ _ h50 hden]; simp [isPlotClosedEv]
  · rw [update_plot_small _ _ _ h50]; simp [isPlotClosedEv]

/-- Every iteration body writes exactly one device command, the measurement
request of backend.py line 108. -/
theorem cmdsOf_iterTrace (file : Bool) (inp : IterInput) (evs : List Ev) :
    cmdsOf (iterTrace file inp evs).1 = ["print(smua.measure.r())"] := by
  cases hresp : inp.resp with
  | none => rw [iterTrace_parse _ _ _ hresp]; simp [cmdsOf]
  | some r =>
    by_cases hrad : radicand r < 0
    · rw [iterTrace_domain _ _ _ _ hresp hrad]; simp [cmdsOf]
    · rw [iterTrace_ok _ _ _ _ hresp (not_lt.mp hrad)]
      rw [cmdsOf_append, cmdsOf_iterMid, cmdsOf_update_plot]
      simp

/-- Every iteration body appends at most one sample to `self.data`. -/
theorem dataOf_iterTrace_le (file : Bool) (inp : IterInput) (evs : List Ev) :
    (dataOf (iterTrace file inp evs).1).length ≤ 1 := by
  cases hresp : inp.resp with
  | none => rw [iterTrace_parse _ _ _ hresp]; simp [dataOf]
  | some r =>
    by_cases hrad : radicand r < 0
    · rw [iterTrace_domain _ _ _ _ hresp hrad]; simp [dataOf]
    · rw [iterTrace_ok _ _ _ _ hresp (not_lt.mp hrad)]
      rw [dataOf_append, dataOf_iterMid, dataOf_update_plot]
      simp

/-- An iteration that raised an exception never observed the plot window
closed: the closed-window observation happens inside `update_plot`, which
returns without raising in that case. -/
theorem plotClosed_iterTrace_err (file : Bool) (inp : IterInput) (evs : List Ev)
    (e : RunErr) (h : (iterTrace file inp evs).2.1 = some e) :
    (iterTrace file inp evs).1.any isPlotClosedEv = false := by
  cases hresp : inp.resp with
  | none => rw [iterTrace_parse _ _ _ hresp]; simp [isPlotClosedEv]
  | some r =>
    by_cases hrad : radicand r < 0
    · rw [iterTrace_domain _ _ _ _ hresp hrad]; simp [isPlotClosedEv]
    · rw [iterTrace_ok _ _ _ _ hresp (not_lt.mp hrad)] at h ⊢
      cases hvis : inp.visible with
      | false =>
        rw [hvis] at h
        rw [update_plot_hidden] at h
        simp at h
      | true =>
        rw [List.any_append, plotClosed_iterMid, plotClosed_update_plot_open]
        rfl

/-- A successful iteration with the plot window open never records a
closed-window observation. -/
theorem plotClosed_iterTrace_open (file : Bool) (inp : IterInput) (evs : List Ev)
    (hvis : inp.visible = true) :
    (iterTrace file inp evs).1.any isPlotClosedEv = false := by
  cases hresp : inp.resp with
  | none => rw [iterTrace_parse _ _ _ hresp]; simp [isPlotClosedEv]
  | some r =>
    by_cases hrad : radicand r < 0
    · rw [iterTrace_domain _ _ _ _ hresp hrad]; simp [isPlotClosedEv]
    · rw [iterTrace_ok _ _ _ _ hresp (not_lt.mp hrad), hvis]
      rw [List.any_append, plotClosed_iterMid, plotClosed_update_plot_open]
      rfl

/-- The event trace only grows: every execution of the loop extends the
starting trace (nothing is ever removed or reordered). -/
theorem loop_events_extend (file : Bool) :
    ∀ (ins : List IterInput) (st : St),
    ∃ tl, (loop file ins st).1.events = st.events ++ tl := by
  intro ins
  induction ins with
  | nil =>
    intro st
    by_cases ha : st.alive = true
    · rw [loop_nil_alive _ _ ha]; exact ⟨[], by simp⟩
    · rw [loop_dead _ _ _ (by simpa using ha)]; exact ⟨cleanupEvents file, rfl⟩
  | cons i rest ih =>
    intro st
    by_cases ha : st.alive = true
    · rcases hit : iterTrace file i st.events with ⟨tr, oe, al2⟩
      cases oe with
      | none =>
        rw [loop_cons_ok _ _ _ _ _ _ ha hit]
        obtain ⟨tl, htl⟩ := ih _
        exact ⟨tr ++ tl, by rw [htl]; simp⟩
      | some e =>
        rw [loop_cons_err _ _ _ _ _ _ _ ha hit]
        exact ⟨tr, rfl⟩
    · rw [loop_dead _ _ _ (by simpa using ha)]; exact ⟨cleanupEvents file, rfl⟩

/-- A loop that exited normally ran backend.py lines 120-124 last: its
trace ends with the cleanup events. -/
theorem loop_normal_tail (file : Bool) :
    ∀ (ins : List IterInput) (st : St),
    (loop file ins st).2 = .normal →
    ∃ evs, (loop file ins st).1.events = evs ++ cleanupEvents file := by
  intro ins
  induction ins with
  | nil =>
    intro st h
    by_cases ha : st.alive = true
    · rw [loop_nil_alive _ _ ha] at h; exact absurd h (by simp)
    · rw [loop_dead _ _ _ (by simpa using ha)]; exact ⟨st.events, rfl⟩
  | cons i rest ih =>
    intro st h
    by_cases ha : st.alive = true
    · rcases hit : iterTrace file i st.events with ⟨tr, oe, al2⟩
      cases oe with
      | none =>
        rw [loop_cons_ok _ _ _ _ _ _ ha hit] at h ⊢
        exact ih _ h
      | some e =>
        rw [loop_cons_err _ _ _ _ _ _ _ ha hit] at h
        exact absurd h (by simp)
    · rw [loop_dead _ _ _ (by simpa using ha)]; exact ⟨st.events, rfl⟩

/-- A loop that aborted with an exception issued no device command beyond
the per-iteration measurement requests: in particular it never reached the
OUTPUT_OFF write of line 123. -/
theorem loop_err_cmds (file : Bool) :
    ∀ (ins : List IterInput) (st : St) (e : RunErr),
    (loop file ins st).2 = .err e →
    ∀ s ∈ cmdsOf (loop file ins st).1.events,
      s ∈ cmdsOf st.events ∨ s = "print(smua.measure.r())" := by
  intro ins
  induction ins with
  | nil =>
    intro st e h
    by_cases ha : st.alive = true
    · rw [loop_nil_alive _ _ ha] at h; exact absurd h (by simp)
    · rw [loop_dead _ _ _ (by simpa using ha)] at h; exact absurd h (by simp)
  | cons i rest ih =>
    intro st e h
    by_cases ha : st.alive = true
    · rcases hit : iterTrace file i st.events with ⟨tr, oe, al2⟩
      have hcm : cmdsOf tr = ["print(smua.measure.r())"] := by
        have := cmdsOf_iterTrace file i st.events
        rw [hit] at this
        exact this
      cases oe with
      | none =>
        rw [loop_cons_ok _ _ _ _ _ _ ha hit] at h ⊢
        intro s hs
        rcases ih _ e h s hs with hmem | hpr
        · rw [cmdsOf_append, hcm] at hmem
          rcases List.mem_append.mp hmem with h1 | h2
          · exact Or.inl h1
          · exact Or.inr (by simpa using h2)
        · exact Or.inr hpr
      | some e2 =>
        rw [loop_cons_err _ _ _ _ _ _ _ ha hit]
        intro s hs
        simp only [cmdsOf_append, hcm] at hs
        rcases List.mem_append.mp hs with h1 | h2
        · exact Or.inl h1
        · exact Or.inr (by simpa using h2)
    · rw [loop_dead _ _ _ (by simpa using ha)] at h; exact absurd h (by simp)

/-- If the GUI stop flag was set during iteration `k` (0-based), at most
`k + 1` further samples are ever recorded: the loop completes at most the
iterations up to and including `k`, each appending at most one sample. -/
theorem loop_stop_data (file : Bool) :
    ∀ (ins : List IterInput) (k : Nat) (st : St) (inp : IterInput),
    ins.get? k = some inp → inp.stop = true →
    (dataOf (loop file ins st).1.events).length ≤ (dataOf st.events).length + k + 1 := by
  intro ins
  induction ins with
  | nil => intro k st inp hk _; simp at hk
  | cons i rest ih =>
    intro k st inp hk hstop
    by_cases ha : st.alive = true
    · rcases hit : iterTrace file i st.events with ⟨tr, oe, al2⟩
      have hdata : (dataOf tr).length ≤ 1 := by
        have := dataOf_iterTrace_le file i st.events
        rw [hit] at this
        exact this
      cases oe with
      | some e =>
        rw [loop_cons_err _ _ _ _ _ _ _ ha hit]
        simp only [dataOf_append, List.length_append]
        omega
      | none =>
        rw [loop_cons_ok _ _ _ _ _ _ ha hit]
        cases k with
        | zero =>
          have hi : i = inp := by simpa using hk
          have hstop2 : i.stop = true := by rw [hi]; exact hstop
          have hal : (al2 && !i.stop) = false := by rw [hstop2]; simp
          rw [loop_dead _ _ _ hal]
          simp only [dataOf_append, List.length_append, dataOf_cleanup, List.length_nil]
          omega
        | succ k2 =>
          have hk2 : rest.get? k2 = some inp := by simpa using hk
          have := ih k2 { events := st.events ++ tr, alive := al2 && !i.stop } inp hk2 hstop
          simp only [dataOf_append, List.length_append] at this ⊢
          omega
    · rw [loop_dead _ _ _ (by simpa using ha)]
      simp only [dataOf_append, List.length_append, dataOf_cleanup, List.length_nil]
      omega

/-- Every iteration body records exactly one elapsed-clock reading. -/
theorem elapsedOf_iterTrace (file : Bool) (inp : IterInput) (evs : List Ev) :
    elapsedOf (iterTrace file inp evs).1 = [inp.t] := by
  cases hresp : inp.resp with
  | none => rw [iterTrace_parse _ _ _ hresp]; simp [elapsedOf]
  | some r =>
    by_cases hrad : radicand r < 0
    · rw [iterTrace_domain _ _ _ _ hresp hrad]; simp [elapsedOf]
    · rw [iterTrace_ok _ _ _ _ hresp (not_lt.mp hrad)]
      rw [elapsedOf_append, elapsedOf_iterMid, elapsedOf_update_plot]
      simp

/-- Every iteration body records at most one wall-clock timestamp, and an
iteration that aborted before line 115 records none. -/
theorem stampsOf_iterTrace (file : Bool) (inp : IterInput) (evs : List Ev) :
    stampsOf (iterTrace file inp evs).1 = [inp.date]
    ∨ stampsOf (iterTrace file inp evs).1 = [] := by
  cases hresp : inp.resp with
  | none => rw [iterTrace_parse _ _ _ hresp]; right; simp [stampsOf]
  | some r =>
    by_cases hrad : radicand r < 0
    · rw [iterTrace_domain _ _ _ _ hresp hrad]; right; simp [stampsOf]
    · rw [iterTrace_ok _ _ _ _ hresp (not_lt.mp hrad)]
      left
      rw [stampsOf_append, stampsOf_iterMid, stampsOf_update_plot]
      simp

/-- The elapsed-clock readings and wall-clock timestamps recorded by a run
are (possibly partial) prefixes of the per-iteration environment readings,
in iteration order: samples are only appended, never removed or reordered. -/
theorem loop_take (file : Bool) :
    ∀ (ins : List IterInput) (st : St),
    ∃ m n, elapsedOf (loop file ins st).1.events
        = elapsedOf st.events ++ (ins.map IterInput.t).take m
      ∧ stampsOf (loop file ins st).1.events
        = stampsOf st.events ++ (ins.map IterInput.date).take n := by
  intro ins
  induction ins with
  | nil =>
    intro st
    by_cases ha : st.alive = true
    · rw [loop_nil_alive _ _ ha]; exact ⟨0, 0, by simp, by simp⟩
    · rw [loop_dead _ _ _ (by simpa using ha)]
      exact ⟨0, 0, by simp [elapsedOf_append, elapsedOf_cleanup],
             by simp [stampsOf_append, stampsOf_cleanup]⟩
  | cons i rest ih =>
    intro st
    by_cases ha : st.alive = true
    · rcases hit : iterTrace file i st.events with ⟨tr, oe, al2⟩
      have hel : elapsedOf tr = [i.t] := by
        have := elapsedOf_iterTrace file i st.events; rw [hit] at this; exact this
      cases oe with
      | some e =>
        rw [loop_cons_err _ _ _ _ _ _ _ ha hit]
        have hst := stampsOf_iterTrace file i st.events
        rw [hit] at hst
        rcases hst with hst | hst
        · exact ⟨1, 1, by simp [elapsedOf_append, hel], by simp [stampsOf_append, hst]⟩
        · exact ⟨1, 0, by simp [elapsedOf_append, hel], by simp [stampsOf_append, hst]⟩
      | none =>
        rw [loop_cons_ok _ _ _ _ _ _ ha hit]
        obtain ⟨m, n, hm, hn⟩ := ih { events := st.events ++ tr, alive := al2 && !i.stop }
        have hst : stampsOf tr = [i.date] := by
          have := stampsOf_iterTrace file i st.events
          rw [hit] at this
          rcases this with h | h
          · exact h
          · -- a successful iteration always reaches line 115
            exfalso
            cases hresp : i.resp with
            | none =>
              rw [iterTrace_parse _ _ _ hresp] at hit
              simp at hit
            | some r =>
              by_cases hrad : radicand r < 0
              · rw [iterTrace_domain _ _ _ _ hresp hrad] at hit
                simp at hit
              · rw [iterTrace_ok _ _ _ _ hresp (not_lt.mp hrad)] at hit
                have h1 : tr = iterMid file i r
                    ++ (update_plot (st.events ++ iterMid file i r) i.date (tval r) i.visible).1 := by
                  have := congrArg Prod.fst hit
                  simpa using this.symm
                rw [h1, stampsOf_append, stampsOf_iterMid, stampsOf_update_plot] at h
                simp at h
        refine ⟨m + 1, n + 1, ?_, ?_⟩
        · rw [hm]
          simp only [List.map_cons, List.take_succ_cons]
          simp [elapsedOf_append, hel]
        · rw [hn]
          simp only [List.map_cons, List.take_succ_cons]
          simp [stampsOf_append, hst]
    · rw [loop_dead _ _ _ (by simpa using ha)]
      exact ⟨0, 0, by simp [elapsedOf_append, elapsedOf_cleanup],
             by simp [stampsOf_append, stampsOf_cleanup]⟩

/-- If a run observed the plot window closed, the loop exited normally at
the next condition check: the running flag stays false, cleanup ran, and
the controller was notified with the success message of line 124. -/
theorem loop_plotClosed (file : Bool) :
    ∀ (ins : List IterInput) (st : St),
    st.alive = true →
    st.events.any isPlotClosedEv = false →
    (loop file ins st).1.events.any isPlotClosedEv = true →
    (loop file ins st).2 = .normal
    ∧ (loop file ins st).1.alive = false
    ∧ Ev.notify true "Closed plotting window" ∈ (loop file ins st).1.events := by
  intro ins
  induction ins with
  | nil =>
    intro st ha hno hyes
    rw [loop_nil_alive _ _ ha] at hyes
    rw [hno] at hyes
    exact absurd hyes (by simp)
  | cons i rest ih =>
    intro st ha hno hyes
    rcases hit : iterTrace file i st.events with ⟨tr, oe, al2⟩
    cases oe with
    | some e =>
      rw [loop_cons_err _ _ _ _ _ _ _ ha hit] at hyes
      have htr : tr.any isPlotClosedEv = false := by
        have := plotClosed_iterTrace_err file i st.events e (by rw [hit])
        rw [hit] at this
        exact this
      simp only [List.any_append, hno, htr] at hyes
      exact absurd hyes (by simp)
    | none =>
      rw [loop_cons_ok _ _ _ _ _ _ ha hit] at hyes ⊢
      cases hvis : i.visible with
      | true =>
        have htr : tr.any isPlotClosedEv = false := by
          have := plotClosed_iterTrace_open file i st.events hvis
          rw [hit] at this
          exact this
        by_cases hal : (al2 && !i.stop) = true
        · exact ih _ hal (by simp [List.any_append, hno, htr]) hyes
        · have hal2 : (al2 && !i.stop) = false := by simpa using hal
          rw [loop_dead _ _ _ hal2] at hyes ⊢
          simp only [List.any_append, hno, htr, plotClosed_cleanup] at hyes
          exact absurd hyes (by simp)
      | false =>
        -- the closed window was observed this iteration: `update_plot`
        -- set the flag false and the loop exits at the next check
        have hshape : tr = iterMid file i (i.resp.getD 0)
              ++ [Ev.plotClosed] ∧ al2 = false := by
          cases hresp : i.resp with
          | none =>
            rw [iterTrace_parse _ _ _ hresp] at hit
            simp at hit
          | some r =>
            by_cases hrad : radicand r < 0
            · rw [iterTrace_domain _ _ _ _ hresp hrad] at hit
              simp at hit
            · rw [iterTrace_ok _ _ _ _ hresp (not_lt.mp hrad), hvis,
                update_plot_hidden] at hit
              constructor
              · have := congrArg Prod.fst hit
                simp at this
                rw [← this]
                simp
              · have := congrArg (fun p => p.2.2) hit
                simpa using this
        have hal2 : (al2 && !i.stop) = false := by rw [hshape.2]; rfl
        rw [loop_dead _ _ _ hal2]
        refine ⟨rfl, hal2, ?_⟩
        simp [notify_mem_cleanup]

/-- C1: for every resistance value R with `-0.00232*R + 17.59246 >= 0`, the
per-iteration conversion in the acquisition loop (backend.py line 112)
returns `T = -(sqrt(-0.00232*R + 17.59246) - 3.908) / 0.00116`; for every R
with `-0.00232*R + 17.59246 < 0`, the conversion fails with DomainError
(Python's math domain error). -/
theorem C1_conversion (r : ℚ) :
    (0 ≤ -0.00232 * (r : ℝ) + 17.59246 →
       convert r
         = .ok (-(Real.sqrt (-0.00232 * (r : ℝ) + 17.59246) - 3.908) / 0.00116))
    ∧ (-0.00232 * (r : ℝ) + 17.59246 < 0 → convert r = .error .domainError) := by
  constructor
  · intro h
    rw [← radicand_cast] at h
    have h0 : 0 ≤ radicand r := by exact_mod_cast h
    rw [convert_of_nonneg h0, tval, radicand_cast]
  · intro h
    rw [← radicand_cast] at h
    have h0 : radicand r < 0 := by exact_mod_cast h
    exact convert_of_neg h0

/-- C1 witness: the conversion succeeds with the closed-form value at
R = 0 and fails with DomainError at R = 10000. -/
theorem C1_conversion_witness :
    (0 ≤ -0.00232 * ((0 : ℚ) : ℝ) + 17.59246
      ∧ convert 0
          = .ok (-(Real.sqrt (-0.00232 * ((0 : ℚ) : ℝ) + 17.59246) - 3.908) / 0.00116))
    ∧ (-0.00232 * ((10000 : ℚ) : ℝ) + 17.59246 < 0
      ∧ convert 10000 = .error .domainError) := by
  have h1 : 0 ≤ -0.00232 * ((0 : ℚ) : ℝ) + 17.59246 := by norm_num
  have h2 : -0.00232 * ((10000 : ℚ) : ℝ) + 17.59246 < 0 := by norm_num
  exact ⟨⟨h1, (C1_conversion 0).1 h1⟩, ⟨h2, (C1_conversion 10000).2 h2⟩⟩

/-- C2 counterexample: a run aborted by a read/parse failure exits with the
uncaught ValueError and the OUTPUT_OFF command is never issued —
`Session.run` has no exception handler, so line 123 is skipped on abort.
This refutes the claim that the output is forced off on every abort. -/
theorem C2_cex :
    (session_run false [⟨0, none, 0, true, false⟩]).2 = .err .parseError
    ∧ "smua.source.output = smua.OUTPUT_OFF"
        ∉ cmdsOf (session_run false [⟨0, none, 0, true, false⟩]).1.events := by
  constructor
  · rfl
  · with_unfolding_all decide

/-- C2 amended: the instrument output is forced off exactly on the normal
exits of the polling loop (running flag observed false, including stop and
closed plot window); a run that aborts with an uncaught exception
(parse failure, DomainError, ZeroDivisionError) exits the thread without
ever issuing the OUTPUT_OFF command. -/
theorem C2_output_off (file : Bool) (inputs : List IterInput) :
    ((session_run file inputs).2 = .normal →
       "smua.source.output = smua.OUTPUT_OFF"
         ∈ cmdsOf (session_run file inputs).1.events)
    ∧ (∀ e, (session_run file inputs).2 = .err e →
       "smua.source.output = smua.OUTPUT_OFF"
         ∉ cmdsOf (session_run file inputs).1.events) := by
  constructor
  · intro h
    obtain ⟨evs, hevs⟩ :=
      loop_normal_tail file inputs { events := initEvents file, alive := true } h
    show "smua.source.output = smua.OUTPUT_OFF"
      ∈ cmdsOf (loop file inputs { events := initEvents file, alive := true }).1.events
    rw [hevs, cmdsOf_append]
    exact List.mem_append.mpr (Or.inr (outputOff_mem_cleanup file))
  · intro e h hmem
    rcases loop_err_cmds file inputs { events := initEvents file, alive := true } e h
        _ hmem with hmem2 | heq
    · rw [cmdsOf_init] at hmem2
      exact absurd hmem2 (by decide)
    · exact absurd heq (by decide)

/-- C2 witness: a manually stopped run exits normally and the OUTPUT_OFF
command appears in its trace; a parse-failed run aborts and it does not. -/
theorem C2_output_off_witness :
    ((session_run true [⟨0, some 0, 0, true, true⟩]).2 = .normal
      ∧ "smua.source.output = smua.OUTPUT_OFF"
          ∈ cmdsOf (session_run true [⟨0, some 0, 0, true, true⟩]).1.events)
    ∧ ((session_run false [⟨0, none, 0, true, false⟩]).2 = .err .parseError
      ∧ "smua.source.output = smua.OUTPUT_OFF"
          ∉ cmdsOf (session_run false [⟨0, none, 0, true, false⟩]).1.events) := by
  have h1 : (session_run true [⟨0, some 0, 0, true, true⟩]).2 = .normal := by
    with_unfolding_all rfl
  have h2 : (session_run false [⟨0, none, 0, true, false⟩]).2 = .err .parseError := rfl
  exact ⟨⟨h1, (C2_output_off true _).1 h1⟩,
         ⟨h2, (C2_output_off false _).2 .parseError h2⟩⟩

/-- C3: when device discovery returns no instruments, session construction
aborts (the no-device path leaves `self.smu` unassigned and `reset_device`
raises AttributeError), so the polling loop is never entered, no device
command is issued, and the user-facing message
`No device found. Please connect one.` is printed. -/
theorem C3_no_device (file : Bool) (inputs : List IterInput) :
    (startmiu [] file inputs).2 = none
    ∧ (startmiu [] file inputs).1.1.devCmds = []
    ∧ ConsoleMsg.noDeviceFound ∈ (startmiu [] file inputs).1.1.msgs := by
  refine ⟨rfl, rfl, ?_⟩
  simp [startmiu, session_init, connect_to_device]

/-- C10: the GUI Stop handler (interface.py line 124) calls
`self.messung.finish(False)` with one positional argument while
`Session.finish` (backend.py line 154) is defined to take none, so the
call raises TypeError and this code path never sets the running flag to
false. -/
theorem C10_stop_type_mismatch (alive : Bool) :
    finishArgCount ≠ finishParamCount
    ∧ stopmiu_finish alive = (.error .typeError, alive) := by
  exact ⟨by decide, rfl⟩

/-- C5 counterexample: a one-sample run with an output file produces a log
with TWO header lines (the `#measurement started at ...` line of line 97
and the column-title line of line 98) followed by the single data row —
not exactly one header line as claimed. -/
theorem C5_cex :
    (fileLinesOf (session_run true [⟨0, some 0, 0, true, true⟩]).1.events).countP
        isHeaderLine = 2
    ∧ (fileLinesOf (session_run true [⟨0, some 0, 0, true, true⟩]).1.events).countP
        (fun l => !isHeaderLine l) = 1
    ∧ (dataOf (session_run true [⟨0, some 0, 0, true, true⟩]).1.events).length = 1 := by
  refine ⟨?_, ?_, ?_⟩ <;> with_unfolding_all rfl

/-- C5 amended: for every clean run with an output file that produces n
samples, the log contains exactly TWO header lines (the measurement-start
line and the column-title line) followed by exactly n tab-separated data
rows, the k-th row carrying the k-th iteration's wall-clock timestamp,
elapsed seconds, resistance and temperature (the numeric fields written
with three decimal places). -/
theorem C5_log_format (inputs : List IterInput)
    (hc : ∀ inp ∈ inputs, basicClean inp)
    (hz : (session_run true inputs).2 ≠ RunExit.err RunErr.zeroDiv) :
    fileLinesOf (session_run true inputs).1.events
      = FileLine.headerStarted :: FileLine.headerColumns ::
          inputs.map (fun inp =>
            FileLine.row inp.date inp.t (inp.resp.getD 0) (tval (inp.resp.getD 0))) := by
  obtain ⟨he, _, _⟩ :=
    loop_clean true inputs { events := initEvents true, alive := true } rfl hc hz
  show fileLinesOf (loop true inputs { events := initEvents true, alive := true }).1.events = _
  rw [he, fileLinesOf_append]
  simp only [fileLinesOf_init, fileLinesOf_cleanEvs]
  simp

/-- C5 witness: a one-sample clean run satisfies the hypotheses and its log
is the two headers followed by the single row. -/
theorem C5_log_format_witness :
    (∀ inp ∈ ([⟨0, some 0, 0, true, false⟩] : List IterInput), basicClean inp)
    ∧ (session_run true [⟨0, some 0, 0, true, false⟩]).2 ≠ RunExit.err RunErr.zeroDiv
    ∧ fileLinesOf (session_run true [⟨0, some 0, 0, true, false⟩]).1.events
      = [FileLine.headerStarted, FileLine.headerColumns,
         FileLine.row 0 0 0 (tval 0)] := by
  have hc : ∀ inp ∈ ([⟨0, some 0, 0, true, false⟩] : List IterInput), basicClean inp := by
    with_unfolding_all decide
  have hz : (session_run true [⟨0, some 0, 0, true, false⟩]).2
      ≠ RunExit.err RunErr.zeroDiv := by
    with_unfolding_all decide
  refine ⟨hc, hz, ?_⟩
  rw [C5_log_format _ hc hz]
  simp

/-- C6: the sample sequence is append-only and, whenever the environment's
clock readings are themselves non-decreasing (the elapsed clock is
monotonic by construction; wall-clock monotonicity is an environment
assumption), the recorded elapsed times and timestamps are non-decreasing:
the trace only ever grows, and the recorded readings form a prefix of the
per-iteration readings in iteration order — nothing is removed or
reordered. -/
theorem C6_monotone (file : Bool) (inputs : List IterInput)
    (ht : List.Pairwise (· ≤ ·) (inputs.map IterInput.t))
    (hd : List.Pairwise (· ≤ ·) (inputs.map IterInput.date)) :
    (∃ tl, (session_run file inputs).1.events = initEvents file ++ tl)
    ∧ (∃ m, elapsedOf (session_run file inputs).1.events
          = (inputs.map IterInput.t).take m)
    ∧ (∃ n, stampsOf (session_run file inputs).1.events
          = (inputs.map IterInput.date).take n)
    ∧ List.Pairwise (· ≤ ·) (elapsedOf (session_run file inputs).1.events)
    ∧ List.Pairwise (· ≤ ·) (stampsOf (session_run file inputs).1.events) := by
  obtain ⟨m, n, hm, hn⟩ :=
    loop_take file inputs { events := initEvents file, alive := true }
  simp only [elapsedOf_init, stampsOf_init, List.nil_append] at hm hn
  refine ⟨loop_events_extend file inputs _, ⟨m, hm⟩, ⟨n, hn⟩, ?_, ?_⟩
  · show List.Pairwise (· ≤ ·)
      (elapsedOf (loop file inputs { events := initEvents file, alive := true }).1.events)
    rw [hm]
    exact ht.sublist (List.take_sublist m _)
  · show List.Pairwise (· ≤ ·)
      (stampsOf (loop file inputs { events := initEvents file, alive := true }).1.events)
    rw [hn]
    exact hd.sublist (List.take_sublist n _)

/-- C6 witness: a concrete two-iteration run with non-decreasing clock
readings has non-decreasing recorded elapsed times and timestamps. -/
theorem C6_monotone_witness :
    List.Pairwise (· ≤ ·)
      (([⟨0, some 0, 1, true, false⟩, ⟨1, some 0, 2, true, false⟩]
        : List IterInput).map IterInput.t)
    ∧ List.Pairwise (· ≤ ·)
      (([⟨0, some 0, 1, true, false⟩, ⟨1, some 0, 2, true, false⟩]
        : List IterInput).map IterInput.date)
    ∧ List.Pairwise (· ≤ ·)
      (elapsedOf (session_run false
        [⟨0, some 0, 1, true, false⟩, ⟨1, some 0, 2, true, false⟩]).1.events) := by
  have ht : List.Pairwise (· ≤ ·)
      (([⟨0, some 0, 1, true, false⟩, ⟨1, some 0, 2, true, false⟩]
        : List IterInput).map IterInput.t) := by
    with_unfolding_all decide
  have hd : List.Pairwise (· ≤ ·)
      (([⟨0, some 0, 1, true, false⟩, ⟨1, some 0, 2, true, false⟩]
        : List IterInput).map IterInput.date) := by
    with_unfolding_all decide
  obtain ⟨-, -, -, h4, -⟩ := C6_monotone false _ ht hd
  exact ⟨ht, hd, h4⟩

/-- C7: if the stop flag is set during iteration k of a running session, at
most one more sample is recorded (at most k+1 samples in total: the loop
finishes its current iteration and exits at the next condition check), and
on the resulting normal exit the device output is turned off and, when an
output file is open, the file is closed. -/
theorem C7_stop (file : Bool) (inputs : List IterInput) (k : Nat) (inp : IterInput)
    (hk : inputs.get? k = some inp) (hstop : inp.stop = true) :
    (dataOf (session_run file inputs).1.events).length ≤ k + 1
    ∧ ((session_run file inputs).2 = .normal →
        "smua.source.output = smua.OUTPUT_OFF"
          ∈ cmdsOf (session_run file inputs).1.events
        ∧ (file = true → Ev.fileClose ∈ (session_run file inputs).1.events)) := by
  constructor
  · have := loop_stop_data file inputs k
      { events := initEvents file, alive := true } inp hk hstop
    simpa [dataOf_init] using this
  · intro h
    obtain ⟨evs, hevs⟩ :=
      loop_normal_tail file inputs { events := initEvents file, alive := true } h
    constructor
    · show "smua.source.output = smua.OUTPUT_OFF"
        ∈ cmdsOf (loop file inputs { events := initEvents file, alive := true }).1.events
      rw [hevs, cmdsOf_append]
      exact List.mem_append.mpr (Or.inr (outputOff_mem_cleanup file))
    · intro hf
      show Ev.fileClose
        ∈ (loop file inputs { events := initEvents file, alive := true }).1.events
      rw [hevs]
      subst hf
      exact List.mem_append.mpr (Or.inr fileClose_mem_cleanup)

/-- C7 witness: stopping at iteration 0 of a one-iteration clean run leaves
one recorded sample, and the output-off and file-close cleanup ran. -/
theorem C7_stop_witness :
    ([⟨0, some 0, 0, true, true⟩] : List IterInput).get? 0
        = some ⟨0, some 0, 0, true, true⟩
    ∧ (⟨0, some 0, 0, true, true⟩ : IterInput).stop = true
    ∧ (dataOf (session_run true [⟨0, some 0, 0, true, true⟩]).1.events).length ≤ 0 + 1
    ∧ "smua.source.output = smua.OUTPUT_OFF"
        ∈ cmdsOf (session_run true [⟨0, some 0, 0, true, true⟩]).1.events
    ∧ Ev.fileClose ∈ (session_run true [⟨0, some 0, 0, true, true⟩]).1.events := by
  have hk : ([⟨0, some 0, 0, true, true⟩] : List IterInput).get? 0
      = some ⟨0, some 0, 0, true, true⟩ := rfl
  have hs : (⟨0, some 0, 0, true, true⟩ : IterInput).stop = true := rfl
  have hn : (session_run true [⟨0, some 0, 0, true, true⟩]).2 = .normal := by
    with_unfolding_all rfl
  obtain ⟨h1, h2⟩ := C7_stop true _ 0 _ hk hs
  obtain ⟨h3, h4⟩ := h2 hn
  exact ⟨hk, hs, h1, h3, h4 rfl⟩

/-- C8: whenever the display sink reports it is no longer open, the running
flag is set to false, the run ends normally (no error is raised), and the
controller is notified with the success message `Closed plotting window`,
which is distinct from the GUI's manual-stop message `Manually stopped`. -/
theorem C8_display_closed (file : Bool) (inputs : List IterInput)
    (h : (session_run file inputs).1.events.any isPlotClosedEv = true) :
    (session_run file inputs).2 = .normal
    ∧ (session_run file inputs).1.alive = false
    ∧ Ev.notify true "Closed plotting window" ∈ (session_run file inputs).1.events
    ∧ "Closed plotting window" ≠ manualStopMsg := by
  obtain ⟨h1, h2, h3⟩ :=
    loop_plotClosed file inputs { events := initEvents file, alive := true } rfl
      (plotClosed_init file) h
  exact ⟨h1, h2, h3, by decide⟩

/-- C8 witness: a run whose first iteration finds the plot window closed
ends normally with the running flag false and the distinct success
notification. -/
theorem C8_display_closed_witness :
    (session_run false [⟨0, some 0, 0, false, false⟩]).1.events.any isPlotClosedEv
        = true
    ∧ (session_run false [⟨0, some 0, 0, false, false⟩]).2 = .normal
    ∧ (session_run false [⟨0, some 0, 0, false, false⟩]).1.alive = false
    ∧ Ev.notify true "Closed plotting window"
        ∈ (session_run false [⟨0, some 0, 0, false, false⟩]).1.events := by
  have h : (session_run false [⟨0, some 0, 0, false, false⟩]).1.events.any
      isPlotClosedEv = true := by
    with_unfolding_all rfl
  obtain ⟨h1, h2, h3, -⟩ := C8_display_closed false _ h
  exact ⟨h, h1, h2, h3⟩

/-- C4 counterexample: a clean run of 51 samples polled every 10 ms (so the
50-sample wall-clock span is 0.5 s) records all 51 samples but displays NO
heating-speed value at all: the code divides by the whole-second
truncation of the wall-clock difference `(x_data[i-1] - x_data[i-51]).seconds`,
which is 0 here, so the uncaught ZeroDivisionError aborts the run — the
claimed value `(T[50]-T[0])/(elapsed[50]-elapsed[0])*60` (a finite number,
since elapsed[50]-elapsed[0] = 0.5 s) is never displayed. -/
theorem C4_cex :
    (dataOf (session_run false c4cexInputs).1.events).length = 51
    ∧ heatsOf (session_run false c4cexInputs).1.events = []
    ∧ (session_run false c4cexInputs).2 = .err .zeroDiv := by
  refine ⟨?_, ?_, ?_⟩ <;> with_unfolding_all rfl

/-- C4 amended: with W=50, in every clean run the displayed heating-speed
values are exactly those of `heatValsAux`: when sample index m (0-based,
m ≥ 50) is appended, the displayed value is `(T[m] - T[m-50])` divided by
the whole-second truncation of the wall-clock timestamp difference
`date[m] - date[m-50]` (not the elapsed-time difference), times 60; when
that truncation is 0 the division raises an uncaught ZeroDivisionError
aborting the run (excluded here by hypothesis); and with 50 or fewer
samples no value is computed and no error is raised. -/
theorem C4_heating (file : Bool) (inputs : List IterInput)
    (hc : ∀ inp ∈ inputs, basicClean inp)
    (hz : (session_run file inputs).2 ≠ RunExit.err RunErr.zeroDiv) :
    heatsOf (session_run file inputs).1.events = heatValsAux [] [] inputs
    ∧ (inputs.length ≤ 50 → heatsOf (session_run file inputs).1.events = [])
    ∧ (session_run file inputs).2 = RunExit.pending := by
  obtain ⟨he, _, hex⟩ :=
    loop_clean file inputs { events := initEvents file, alive := true } rfl hc hz
  have hh : heatsOf (session_run file inputs).1.events = heatValsAux [] [] inputs := by
    show heatsOf (loop file inputs { events := initEvents file, alive := true }).1.events = _
    rw [he, heatsOf_append]
    simp only [heatsOf_init, heatsOf_cleanEvs, plotXs_init, plotYs_init]
    simp
  refine ⟨hh, ?_, hex⟩
  intro hlen
  rw [hh]
  exact heatValsAux_short inputs [] [] (by simpa using hlen)

/-- C4 witness: a clean 51-sample run polled 1 s apart satisfies the
hypotheses, and its displayed heating values are those of `heatValsAux`. -/
theorem C4_heating_witness :
    (∀ inp ∈ c4okInputs, basicClean inp)
    ∧ (session_run false c4okInputs).2 ≠ RunExit.err RunErr.zeroDiv
    ∧ heatsOf (session_run false c4okInputs).1.events = heatValsAux [] [] c4okInputs := by
  have hc : ∀ inp ∈ c4okInputs, basicClean inp := by
    with_unfolding_all decide
  have hz : (session_run false c4okInputs).2 ≠ RunExit.err RunErr.zeroDiv := by
    with_unfolding_all decide
  exact ⟨hc, hz, (C4_heating false c4okInputs hc hz).1⟩

theorem appendEv_iterMid (file : Bool) (inp : IterInput) (r : ℚ) :
    (iterMid file inp r).any isAppendEv = true := by
  cases file <;> simp [iterMid, isAppendEv]

theorem fileWriteEv_iterMid (inp : IterInput) (r : ℚ) :
    (iterMid true inp r).any isFileWriteEv = true := by
  simp [iterMid, isFileWriteEv]

theorem plotPoint_update_plot_open (evs : List Ev) (x : ℚ) (y : ℝ) :
    (update_plot evs x y true).1.any isPlotPointEv = true := by
  by_cases h50 : 50 < (plotXs evs).length + 1
  · by_cases hden :
      tdSeconds (x - (plotXs evs).getD ((plotXs evs).length - 50) 0) = 0
    · rw [update_plot_zero _ _ _ h50 hden]; simp [isPlotPointEv]
    · rw [update_plot_heat _ _ _ h50 hden]; simp [isPlotPointEv]
  · rw [update_plot_small _ _ _ h50]; simp [isPlotPointEv]

/-- The iteration body's trace starts with the six pre-sleep events of
backend.py lines 106-114, ending in the sleep. -/
theorem iterMid_first6 (file : Bool) (inp : IterInput) (r : ℚ) :
    ∃ tail, iterMid file inp r
      = [Ev.tick inp.t, Ev.cmd "print(smua.measure.r())", Ev.readResp (some r),
         Ev.printRes r, Ev.printT (tval r), Ev.sleep50] ++ tail := by
  cases file
  · exact ⟨[Ev.takeDate inp.date, Ev.appendData inp.date (tval r)], rfl⟩
  · exact ⟨[Ev.takeDate inp.date, Ev.fileWrite (.row inp.date inp.t r (tval r)),
      Ev.appendData inp.date (tval r)], rfl⟩

/-- C9 counterexample: in a one-iteration run with a file, the 50 ms sleep
event occurs in the trace BEFORE any recording step (wall-clock timestamp,
file row, sample append, plot forward), yet the iteration does record — so
the claimed order (record, file, plot, all before the sleep) is false:
`time.sleep(0.05)` is at backend.py line 114, before lines 115-119. -/
theorem C9_cex :
    (((session_run true [⟨0, some 0, 0, true, true⟩]).1.events.drop 2).take 17).any
        isSleepEv = true
    ∧ (((session_run true [⟨0, some 0, 0, true, true⟩]).1.events.drop 2).take 17).any
        isRecordEv = false
    ∧ ((session_run true [⟨0, some 0, 0, true, true⟩]).1.events.drop 2).any
        isRecordEv = true := by
  refine ⟨?_, ?_, ?_⟩ <;> with_unfolding_all rfl

/-- C9 amended: in every successfully completed iteration the steps occur
in the source's order — elapsed reading, measurement command and read,
console prints, then the fixed 50 ms sleep (trace position 5), and only
AFTER the sleep the wall-clock timestamp, the file row (when a file is
open), the sample append, and the plot forward (when the window is open);
the sleep does not end the iteration. -/
theorem C9_order (file : Bool) (inp : IterInput) (evs : List Ev)
    (h : iterOk file inp evs) :
    (iterTrace file inp evs).1.get? 5 = some Ev.sleep50
    ∧ (∀ j e, (iterTrace file inp evs).1.get? j = some e →
        isRecordEv e = true → 5 < j)
    ∧ (iterTrace file inp evs).1.any isAppendEv = true
    ∧ (file = true → (iterTrace file inp evs).1.any isFileWriteEv = true)
    ∧ (inp.visible = true → (iterTrace file inp evs).1.any isPlotPointEv = true) := by
  rw [iterOk] at h
  cases hresp : inp.resp with
  | none => rw [iterTrace_parse _ _ _ hresp] at h; simp at h
  | some r =>
    by_cases hrad : radicand r < 0
    · rw [iterTrace_domain _ _ _ _ hresp hrad] at h; simp at h
    · rw [iterTrace_ok _ _ _ _ hresp (not_lt.mp hrad)] at h ⊢
      obtain ⟨tl, htl⟩ := iterMid_first6 file inp r
      refine ⟨?_, ?_, ?_, ?_, ?_⟩
      · rw [htl]
        rfl
      · intro j e hj hrec
        rcases Nat.lt_or_ge 5 j with h5 | h5
        · exact h5
        · exfalso
          rw [htl, List.append_assoc] at hj
          rw [List.get?_append (by simp; omega)] at hj
          interval_cases j <;>
            simp only [List.get?, Option.some.injEq] at hj <;>
            (rw [← hj] at hrec; simp [isRecordEv] at hrec)
      · rw [List.any_append, appendEv_iterMid]
        rfl
      · intro hf
        subst hf
        rw [List.any_append, fileWriteEv_iterMid]
        rfl
      · intro hv
        rw [hv, List.any_append, plotPoint_update_plot_open]
        simp

/-- C9 witness: a concrete successful iteration has the sleep at trace
position 5 and does append a sample. -/
theorem C9_order_witness :
    iterOk true ⟨0, some 0, 0, true, false⟩ []
    ∧ (iterTrace true ⟨0, some 0, 0, true, false⟩ []).1.get? 5 = some Ev.sleep50
    ∧ (iterTrace true ⟨0, some 0, 0, true, false⟩ []).1.any isAppendEv = true
    ∧ (iterTrace true ⟨0, some 0, 0, true, false⟩ []).1.any isFileWriteEv = true := by
  have h : iterOk true ⟨0, some 0, 0, true, false⟩ [] := by
    with_unfolding_all rfl
  obtain ⟨h1, -, h3, h4, -⟩ := C9_order true ⟨0, some 0, 0, true, false⟩ [] h
  exact ⟨h, h1, h3, h4 rfl⟩
